import Mathlib

/-!
Verification of the bus-travel EDA dashboard script (`app.py`).

The development shallowly embeds the three stages of the script:

* the loader/normalizer (`load_data`, the `COLUMN_MAP` rename, and the
  required-column default fill) over a column-oriented table whose cells
  carry either a string, an exact rational number, or a missing value
  (pandas `NaN`);
* the filter engine (the `filtered_df` cascade of `isin` masks) over
  row-level records;
* the aggregator / insight generator (the KPI values, the top-10 route
  revenue ranking, the heatmap restriction and pivot, and the mode-based
  insights).

Modelling conventions, fixed once for the whole file:

* machine floats are replaced by exact rationals (`Rat`);
* `pd.read_csv` numeric inference is per column: a column whose
  non-missing cells all parse as decimal numbers becomes numeric,
  otherwise its cells stay strings; a cell equal to one of pandas'
  default NA sentinels (the empty string, "N/A", "NA", ...) becomes
  missing (`Value.nan`);
* `pd.to_numeric(..., errors='coerce').fillna(0)` keeps numbers and turns
  a missing or unparseable cell into `0`;
* `groupby` sorts group keys ascending and drops missing keys, and
  `Series.mode` and `value_counts` drop missing values, as pandas does by
  default; `sort_values(ascending=False)` applied to the key-sorted
  `groupby` aggregate is modelled as the descending sort that keeps the
  ascending key order among equal values, i.e. the lexicographic order
  "larger sum first, equal sums in ascending key order";
* CSV serialization (`to_csv` followed by `read_csv`) is modelled
  cell-wise per column; the row/column transposition of the physical file
  is an out-of-scope faithful bijection and is elided.
-/

/-- A dataframe cell: a string, an exact number, or a missing value. -/
inductive Value where
  | str : String → Value
  | num : Rat → Value
  | nan : Value
deriving DecidableEq

/-- A column-oriented dataframe: an ordered list of named columns. -/
abbrev Table := List (String × List Value)

/-- A parsed CSV source: an ordered list of named columns of raw text cells. -/
abbrev RawCsv := List (String × List String)

/-- Value of a list of decimal digit characters. -/
def digitsToNat (ds : List Char) : Nat :=
  ds.foldl (fun n c => 10 * n + (c.toNat - 48)) 0

/-- Decimal number parsing as performed by pandas numeric conversion:
an optional sign, digits, and at most one decimal point. -/
def parseDecimal (s : String) : Option Rat :=
  let cs := s.toList
  let signed : Bool := match cs with | '-' :: _ => true | _ => false
  let rest : List Char :=
    match cs with
    | '-' :: r => r
    | '+' :: r => r
    | r => r
  if (rest.all fun c => c.isDigit || c == '.') && decide (rest.count '.' ≤ 1) &&
      (rest.any Char.isDigit) then
    let ip := rest.takeWhile fun c => c != '.'
    let fp := (rest.dropWhile fun c => c != '.').drop 1
    let mag : Rat := (digitsToNat ip : Rat) + (digitsToNat fp : Rat) / ((10 : Rat) ^ fp.length)
    some (if signed then -mag else mag)
  else
    none

/-- Fractional decimal digits of `r / d`, with fuel. -/
def fracDigits : Nat → Nat → Nat → List Char
  | 0, _, _ => []
  | _ + 1, 0, _ => []
  | fuel + 1, r, d => Char.ofNat (48 + r * 10 / d) :: fracDigits fuel (r * 10 % d) d

/-- Decimal rendering of a rational, as `to_csv` writes a number. Exact for
rationals with a terminating decimal expansion, which is the only kind the
pipeline produces. -/
def renderRat (q : Rat) : String :=
  let n := q.num.natAbs
  let d := q.den
  let ip := n / d
  let r := n % d
  let core := if r = 0 then toString ip else toString ip ++ "." ++ String.mk (fracDigits d r d)
  if q < 0 then "-" ++ core else core

/-- The commonly hit entries of pandas' default `na_values` list. -/
def na_values : List String :=
  ["", "N/A", "NA", "NaN", "nan", "NULL", "null", "None", "n/a", "<NA>"]

/-- Whether a raw text cell is one of pandas' NA sentinels. -/
def isNA (s : String) : Bool := na_values.contains s

/-- Read one raw cell with numeric inference. -/
def readCell (s : String) : Value :=
  if isNA s then Value.nan
  else
    match parseDecimal s with
    | some q => Value.num q
    | none => Value.str s

/-- Read one raw column: the column becomes numeric when every non-missing
cell parses as a number, otherwise the non-missing cells stay strings. -/
def readColumn (cs : List String) : List Value :=
  if cs.all fun s => isNA s || (parseDecimal s).isSome then cs.map readCell
  else cs.map fun s => if isNA s then Value.nan else Value.str s

/-- Model of `pd.to_numeric(col, errors='coerce').fillna(0)` on one cell. -/
def to_numeric_fill0 (v : Value) : Value :=
  match v with
  | Value.num q => Value.num q
  | Value.nan => Value.num 0
  | Value.str s =>
    match parseDecimal s with
    | some q => Value.num q
    | none => Value.num 0

/-- The numeric repair `load_data` performs on the two raw fare columns,
when present (`app.py`, lines 40-43). -/
def coerceFareColumns (t : Table) : Table :=
  t.map fun col =>
    if col.1 == "Seat Fare" || col.1 == "Total Ticket Amount" then
      (col.1, col.2.map to_numeric_fill0)
    else col

/-- Model of `load_data` on a source whose tabular parse succeeded:
`pd.read_csv` followed by the fare coercion (`app.py`, lines 38-44). -/
def load_data (raw : RawCsv) : Table :=
  coerceFareColumns (raw.map fun col => (col.1, readColumn col.2))

/-- The static rename table (`app.py`, lines 60-68). -/
def COLUMN_MAP : List (String × String) :=
  [("Encode Route", "Route"), ("Category", "Category"), ("Time Of Travel", "Time_of_Travel"),
   ("Seat Fare", "Seat Fare"), ("Total Ticket Amount", "Total_Amount"),
   ("Gender", "Gender"), ("Age Group", "Age_Group")]

/-- The new name of a column under `COLUMN_MAP`; unknown names stay. -/
def mapName (n : String) : String :=
  match COLUMN_MAP.lookup n with
  | some m => m
  | none => n

/-- `df.rename(columns=COLUMN_MAP)` (`app.py`, line 71). -/
def rename_columns (t : Table) : Table := t.map fun col => (mapName col.1, col.2)

/-- The canonical columns required downstream (`app.py`, line 74). -/
def required_cols : List String :=
  ["Route", "Category", "Time_of_Travel", "Seat Fare", "Total_Amount", "Gender", "Age_Group"]

/-- Row count of a table (all columns have the same length in a dataframe). -/
def nrows (t : Table) : Nat :=
  match t with
  | [] => 0
  | col :: _ => col.2.length

/-- Whether a table has a column of the given name. -/
def hasCol (t : Table) (c : String) : Bool := t.any fun col => col.1 == c

/-- The default column injected for a missing canonical column:
`"N/A"` for categorical columns, `0` for the fare columns. -/
def defaultColumn (c : String) (n : Nat) : List Value :=
  if c == "Seat Fare" || c == "Total_Amount" then List.replicate n (Value.num 0)
  else List.replicate n (Value.str "N/A")

/-- The default-fill loop over `required_cols` (`app.py`, lines 75-77). -/
def ensure_required (t : Table) : Table :=
  required_cols.foldl
    (fun acc c => if hasCol acc c then acc else acc ++ [(c, defaultColumn c (nrows acc))]) t

/-- The whole loader/normalizer: read and coerce, rename, default-fill. -/
def normalizeCsv (raw : RawCsv) : Table := ensure_required (rename_columns (load_data raw))

/-- One cell as `to_csv` writes it: numbers in decimal, NaN as empty. -/
def writeCell (v : Value) : String :=
  match v with
  | Value.str s => s
  | Value.num q => renderRat q
  | Value.nan => ""

/-- Model of `filtered_df.to_csv(index=False)` (`app.py`, line 200). -/
def to_csv (t : Table) : RawCsv := t.map fun col => (col.1, col.2.map writeCell)

/-- One normalized ticket-transaction row. The fare fields are numeric, as
the normalizer guarantees for every dataset it produces; the categorical
fields carry arbitrary cells (strings, numbers or missing values). -/
structure Record where
  route : Value
  category : Value
  time_of_travel : Value
  seat_fare : Rat
  total_amount : Rat
  gender : Value
  age_group : Value
deriving DecidableEq

/-- The five sidebar multiselect states; an empty list means the widget has
no selection, which Python's truthiness test skips. -/
structure Criteria where
  route_filter : List Value
  category_filter : List Value
  time_filter : List Value
  gender_filter : List Value
  age_filter : List Value
deriving DecidableEq

/-- The filter cascade (`app.py`, lines 88-99): each non-empty selection
applies an `isin` mask in turn. -/
def filtered_df (df : List Record) (c : Criteria) : List Record :=
  let d1 := if c.route_filter.isEmpty then df
    else df.filter fun r => c.route_filter.contains r.route
  let d2 := if c.category_filter.isEmpty then d1
    else d1.filter fun r => c.category_filter.contains r.category
  let d3 := if c.time_filter.isEmpty then d2
    else d2.filter fun r => c.time_filter.contains r.time_of_travel
  let d4 := if c.gender_filter.isEmpty then d3
    else d3.filter fun r => c.gender_filter.contains r.gender
  let d5 := if c.age_filter.isEmpty then d4
    else d4.filter fun r => c.age_filter.contains r.age_group
  d5

/-- Spec-side pass predicate: a record passes when, for every field with a
non-empty criterion set, its value for that field belongs to that set. -/
def passes (c : Criteria) (r : Record) : Bool :=
  (c.route_filter.isEmpty || c.route_filter.contains r.route) &&
  (c.category_filter.isEmpty || c.category_filter.contains r.category) &&
  (c.time_filter.isEmpty || c.time_filter.contains r.time_of_travel) &&
  (c.gender_filter.isEmpty || c.gender_filter.contains r.gender) &&
  (c.age_filter.isEmpty || c.age_filter.contains r.age_group)

/-- Spec-side per-field conjunction of two selections: an empty selection is
no constraint, two active selections intersect. -/
def combineSel (s1 s2 : List Value) : List Value :=
  if s1.isEmpty then s2 else if s2.isEmpty then s1 else s1.inter s2

/-- Spec-side conjunction of two criteria configurations. -/
def conjCriteria (c1 c2 : Criteria) : Criteria :=
  ⟨combineSel c1.route_filter c2.route_filter,
   combineSel c1.category_filter c2.category_filter,
   combineSel c1.time_filter c2.time_filter,
   combineSel c1.gender_filter c2.gender_filter,
   combineSel c1.age_filter c2.age_filter⟩

/-- The all-empty criteria configuration (no widget has a selection). -/
def emptyCriteria : Criteria := ⟨[], [], [], [], []⟩

/-- Total order on cells used to model how pandas sorts keys: missing
values first, then numbers, then strings. -/
def valueLE : Value → Value → Bool
  | Value.nan, _ => true
  | Value.num _, Value.nan => false
  | Value.num a, Value.num b => decide (a ≤ b)
  | Value.num _, Value.str _ => true
  | Value.str _, Value.nan => false
  | Value.str _, Value.num _ => false
  | Value.str a, Value.str b => decide (a ≤ b)

/-- Propositional form of `valueLE`. -/
def vle (a b : Value) : Prop := valueLE a b = true

instance : DecidableRel vle := fun a b => by unfold vle; infer_instance

/-- First-occurrence deduplication, with an accumulator of seen values. -/
def distinctAux {α : Type} [DecidableEq α] (seen : List α) : List α → List α
  | [] => []
  | a :: l => if a ∈ seen then distinctAux seen l else a :: distinctAux (a :: seen) l

/-- The distinct values of a column in first-occurrence order, as pandas
`unique` returns them. -/
def distinct {α : Type} [DecidableEq α] (l : List α) : List α := distinctAux [] l

/-- Distinct non-missing values of a column: `groupby`, `value_counts` and
`mode` drop missing keys by default. -/
def distinctDropNa (l : List Value) : List Value :=
  (distinct l).filter fun v => v != Value.nan

/-- KPI: `total_tickets = len(filtered_df)` (`app.py`, line 106). -/
def total_tickets (df : List Record) : Nat := df.length

/-- KPI: mean seat fare, `0` on an empty view (`app.py`, line 107). -/
def avg_fare (df : List Record) : Rat :=
  if 0 < total_tickets df then (df.map Record.seat_fare).sum / (total_tickets df : Rat) else 0

/-- KPI: total revenue, `0` on an empty view (`app.py`, line 108). -/
def total_rev (df : List Record) : Rat :=
  if 0 < total_tickets df then (df.map Record.total_amount).sum else 0

/-- KPI: maximal booking, `0` on an empty view (`app.py`, line 109). -/
def max_book (df : List Record) : Rat :=
  if 0 < total_tickets df then
    match df.map Record.total_amount with
    | [] => 0
    | x :: xs => xs.foldl max x
  else 0

/-- Revenue of one route group: the sum of `Total_Amount` over its rows. -/
def routeSum (df : List Record) (v : Value) : Rat :=
  ((df.filter fun r => r.route == v).map Record.total_amount).sum

/-- The order in which `groupby("Route")...sum().sort_values(ascending=False)`
emits the groups: larger sum first; equal sums keep the ascending key order
the `groupby` had already established. -/
def revOrd (a b : Value × Rat) : Prop := b.2 < a.2 ∨ (b.2 = a.2 ∧ vle a.1 b.1)

instance : DecidableRel revOrd := fun a b => by unfold revOrd; infer_instance

/-- `route_rev` (`app.py`, line 134): group the filtered rows by route, sum
`Total_Amount`, sort descending by the sum, keep the first 10. -/
def route_rev (df : List Record) : List (Value × Rat) :=
  List.take 10 (List.insertionSort revOrd
    ((distinctDropNa (df.map Record.route)).map fun v => (v, routeSum df v)))

/-- Row count of one route, `value_counts` style. -/
def routeCount (df : List Record) (v : Value) : Nat :=
  (df.filter fun r => r.route == v).length

/-- `top_10` (`app.py`, line 167): the ten most frequent routes by row
count (`value_counts().nlargest(10)`). -/
def top_10 (df : List Record) : List Value :=
  List.take 10 (List.insertionSort (fun a b => routeCount df b ≤ routeCount df a)
    (distinctDropNa (df.map Record.route)))

/-- `heatmap_data` (`app.py`, line 168): the filtered rows whose route is
among the ten most frequent routes. -/
def heatmap_data (df : List Record) : List Record :=
  df.filter fun r => (top_10 df).contains r.route

/-- Values sorted ascending, as a pivot table sorts its keys. -/
def valueSort (l : List Value) : List Value := List.insertionSort vle l

/-- One pivot cell: the number of rows carrying the given route and time;
a combination absent from the data yields `0`, modelling `fillna(0)`. -/
def pivot_cell (d : List Record) (rt tm : Value) : Nat :=
  (d.filter fun r => r.route == rt && r.time_of_travel == tm).length

/-- The route-by-time count pivot (`app.py`, lines 171-172). -/
def route_time_pivot (d : List Record) : List (Value × List (Value × Nat)) :=
  (valueSort (distinctDropNa (d.map Record.route))).map fun rt =>
    (rt, (valueSort (distinctDropNa (d.map Record.time_of_travel))).map fun tm =>
      (tm, pivot_cell d rt tm))

/-- The heatmap stage (`app.py`, lines 167-177): no pivot is produced when
the restricted set is empty. -/
def route_time_heatmap (df : List Record) : Option (List (Value × List (Value × Nat))) :=
  if (heatmap_data df).isEmpty then none else some (route_time_pivot (heatmap_data df))

/-- Maximum of a list of naturals. -/
def natMax (l : List Nat) : Nat := l.foldr max 0

/-- Model of pandas `Series.mode`: the non-missing values attaining the
maximal count. (The internal order of ties is implementation-defined in
pandas and is not relied on by any theorem below.) -/
def modeList (l : List Value) : List Value :=
  let l' := l.filter fun v => v != Value.nan
  let d := distinct l'
  let m := natMax (d.map fun v => l'.count v)
  d.filter fun v => l'.count v == m

/-- Insight `top_route` (`app.py`, line 183): `mode().values[0]` guarded by
the emptiness of the column; `none` models an out-of-bounds index. -/
def top_route (df : List Record) : Option Value :=
  if !(df.map Record.route).isEmpty then (modeList (df.map Record.route))[0]?
  else some (Value.str "N/A")

/-- Insight `top_time` (`app.py`, line 184). -/
def top_time (df : List Record) : Option Value :=
  if !(df.map Record.time_of_travel).isEmpty then (modeList (df.map Record.time_of_travel))[0]?
  else some (Value.str "N/A")

/-- Insight `dominant_gender` (`app.py`, line 185). -/
def dominant_gender (df : List Record) : Option Value :=
  if !(df.map Record.gender).isEmpty then (modeList (df.map Record.gender))[0]?
  else some (Value.str "N/A")

/-- Insight for the age bracket (`app.py`, line 190). -/
def dominant_age_group (df : List Record) : Option Value :=
  if !(df.map Record.age_group).isEmpty then (modeList (df.map Record.age_group))[0]?
  else some (Value.str "N/A")

/-- One cell as `astype(str)` renders it; pandas turns NaN into "nan". -/
def valueToStr : Value → String
  | Value.str s => s
  | Value.num q => renderRat q
  | Value.nan => "nan"

/-- The gender widget options (`app.py`, line 85): the sorted distinct
values of the column after conversion to strings. -/
def gender_options (df : List Record) : List String :=
  List.insertionSort (fun a b : String => a ≤ b)
    (distinct (df.map fun r => valueToStr r.gender))

/-- The age-group widget options (`app.py`, line 86). -/
def age_options (df : List Record) : List String :=
  List.insertionSort (fun a b : String => a ≤ b)
    (distinct (df.map fun r => valueToStr r.age_group))

/-- A criteria configuration that only selects genders, as the widget
produces it: the selected strings, wrapped as string cells. -/
def genderOnly (sel : List String) : Criteria := ⟨[], [], [], sel.map Value.str, []⟩

/-- A criteria configuration that only selects age groups. -/
def ageOnly (sel : List String) : Criteria := ⟨[], [], [], [], sel.map Value.str⟩

/-- A sample record on route "A". -/
def recA : Record :=
  ⟨Value.str "A", Value.str "Seater", Value.str "Morning", 100, 100,
   Value.str "Male", Value.str "18-25"⟩

/-- A criteria configuration selecting only route "A". -/
def selA : Criteria := ⟨[Value.str "A"], [], [], [], []⟩

/-- A criteria configuration selecting only route "B". -/
def selB : Criteria := ⟨[Value.str "B"], [], [], [], []⟩

/-- A record whose route cell is a missing value (NaN). -/
def recNanRoute : Record :=
  ⟨Value.nan, Value.str "Seater", Value.str "Morning", 0, 0,
   Value.str "Male", Value.str "18-25"⟩

/-- Two equal-revenue routes with the later route alphabetically first. -/
def recB300 : Record :=
  ⟨Value.str "B", Value.str "Seater", Value.str "Morning", 150, 300,
   Value.str "Male", Value.str "18-25"⟩

/-- A 300-revenue row on route "A". -/
def recA300 : Record :=
  ⟨Value.str "A", Value.str "Seater", Value.str "Evening", 150, 300,
   Value.str "Female", Value.str "26-40"⟩

/-- Rows for route "B" strictly before rows for route "A". -/
def dfBA : List Record := [recB300, recA300]

/-- A one-row dataset on route "A". -/
def dfA : List Record := [recA300]

/-- A record whose gender cell is the number 25 rather than a string. -/
def recNumGender : Record :=
  ⟨Value.str "A", Value.str "Seater", Value.str "Morning", 0, 0,
   Value.num 25, Value.str "18-25"⟩

/-- A one-column raw source holding malformed and parseable fare cells. -/
def rawFare : RawCsv := [("Seat Fare", ["abc", "", "12.5"])]

/-- A raw source that already carries a canonical "Total_Amount" column. -/
def rawTA : RawCsv := [("Total_Amount", ["abc", "5"]), ("Encode Route", ["R1", "R2"])]

/-- A number cell that survives CSV write and numeric re-inference. -/
def numCellOk : Value → Bool
  | Value.num q => parseDecimal (renderRat q) == some q
  | Value.nan => true
  | Value.str _ => false

/-- A text cell that survives CSV write and re-inference as text: not an
NA sentinel and not numeric-looking. -/
def textCellOk : Value → Bool
  | Value.str s => !(isNA s) && (parseDecimal s).isNone
  | Value.nan => true
  | Value.num _ => false

/-- A normalized one-row view whose Route column was default-filled with
"N/A" (the normalizer produces exactly this when the source lacks a route
column). -/
def tNA : Table :=
  [("Route", [Value.str "N/A"]), ("Category", [Value.str "Seater"]),
   ("Time_of_Travel", [Value.str "Morning"]), ("Seat Fare", [Value.num 0]),
   ("Total_Amount", [Value.num 0]), ("Gender", [Value.str "Male"]),
   ("Age_Group", [Value.str "Young"])]

/-- A well-behaved one-row view: plain text cells, integer fares. -/
def tGood : Table :=
  [("Route", [Value.str "R1"]), ("Category", [Value.str "Seater"]),
   ("Time_of_Travel", [Value.str "Morning"]), ("Seat Fare", [Value.num 12]),
   ("Total_Amount", [Value.num 12]), ("Gender", [Value.str "Male"]),
   ("Age_Group", [Value.str "Young"])]

theorem inter_eq_filter (l1 l2 : List Value) :
    l1.inter l2 = l1.filter fun x => l2.contains x := rfl

theorem filtered_df_eq_filter (df : List Record) (c : Criteria) :
    filtered_df df c = df.filter fun r => passes c r := by
  obtain ⟨s1, s2, s3, s4, s5⟩ := c
  cases s1 <;> cases s2 <;> cases s3 <;> cases s4 <;> cases s5 <;>
    simp [filtered_df, passes, List.filter_filter, Bool.and_assoc, Bool.and_comm,
      Bool.and_left_comm]

theorem combineSel_mem (s1 s2 : List Value) (v : Value)
    (h : s1 ≠ [] → s2 ≠ [] → s1.inter s2 ≠ []) :
    ((combineSel s1 s2).isEmpty || (combineSel s1 s2).contains v) =
      ((s1.isEmpty || s1.contains v) && (s2.isEmpty || s2.contains v)) := by
  unfold combineSel
  cases s1 with
  | nil => simp
  | cons a t1 =>
    cases s2 with
    | nil => simp
    | cons b t2 =>
      have hne : (a :: t1).inter (b :: t2) ≠ [] := h (by simp) (by simp)
      have h2 : ((a :: t1).inter (b :: t2)).isEmpty = false := by
        simpa [List.isEmpty_iff] using hne
      simp only [List.isEmpty_cons, Bool.false_eq_true, reduceIte, h2, Bool.false_or]
      rw [Bool.eq_iff_iff]
      simp [inter_eq_filter, List.mem_filter]

theorem filter_conj_general (d : List Record) (c1 c2 : Criteria)
    (h1 : c1.route_filter ≠ [] → c2.route_filter ≠ [] →
      c1.route_filter.inter c2.route_filter ≠ [])
    (h2 : c1.category_filter ≠ [] → c2.category_filter ≠ [] →
      c1.category_filter.inter c2.category_filter ≠ [])
    (h3 : c1.time_filter ≠ [] → c2.time_filter ≠ [] →
      c1.time_filter.inter c2.time_filter ≠ [])
    (h4 : c1.gender_filter ≠ [] → c2.gender_filter ≠ [] →
      c1.gender_filter.inter c2.gender_filter ≠ [])
    (h5 : c1.age_filter ≠ [] → c2.age_filter ≠ [] →
      c1.age_filter.inter c2.age_filter ≠ []) :
    filtered_df (filtered_df d c1) c2 = filtered_df d (conjCriteria c1 c2) := by
  rw [filtered_df_eq_filter, filtered_df_eq_filter, filtered_df_eq_filter, List.filter_filter]
  refine List.filter_congr ?_
  intro r _
  show (passes c2 r && passes c1 r) = passes (conjCriteria c1 c2) r
  unfold passes conjCriteria
  simp only [combineSel_mem _ _ _ h1, combineSel_mem _ _ _ h2, combineSel_mem _ _ _ h3,
    combineSel_mem _ _ _ h4, combineSel_mem _ _ _ h5]
  simp only [Bool.and_assoc, Bool.and_comm, Bool.and_left_comm]

theorem filter_empty_id (d : List Record) : filtered_df d emptyCriteria = d := by
  simp [filtered_df, emptyCriteria]

/-- C1: the filter keeps a record if and only if, for every field whose
criterion set is non-empty, the record's value for that field belongs to
that set; fields with empty criteria impose no constraint; the result is
the order-preserving subsequence of the records that pass (it may be empty,
and the filter is a total function, so an empty result is not an error). -/
theorem filter_engine_correct (df : List Record) (c : Criteria) :
    filtered_df df c = df.filter (fun r => passes c r) ∧ (filtered_df df c).Sublist df := by
  refine ⟨filtered_df_eq_filter df c, ?_⟩
  rw [filtered_df_eq_filter]
  exact List.filter_sublist df

/-- C2 counterexample: with route criteria denoting disjoint sets
(route "A" then route "B"), sequential filtering empties the dataset, but
the per-field intersection is the empty selection, which the filter engine
treats as "no constraint", so the one-pass filter returns the dataset. -/
theorem filter_conj_counterexample :
    filtered_df (filtered_df [recA] selA) selB ≠
      filtered_df [recA] (conjCriteria selA selB) := by decide

/-- C2 (amended): sequential filtering agrees with one-pass filtering by
the per-field intersection of active value-sets, provided every field that
is active in both configurations has a non-empty intersection (an empty
intersection would be read back as "no constraint"); and filtering with all
criteria empty returns the dataset unchanged. -/
theorem filter_conj_amended (d : List Record) (c1 c2 : Criteria)
    (h1 : c1.route_filter ≠ [] → c2.route_filter ≠ [] →
      c1.route_filter.inter c2.route_filter ≠ [])
    (h2 : c1.category_filter ≠ [] → c2.category_filter ≠ [] →
      c1.category_filter.inter c2.category_filter ≠ [])
    (h3 : c1.time_filter ≠ [] → c2.time_filter ≠ [] →
      c1.time_filter.inter c2.time_filter ≠ [])
    (h4 : c1.gender_filter ≠ [] → c2.gender_filter ≠ [] →
      c1.gender_filter.inter c2.gender_filter ≠ [])
    (h5 : c1.age_filter ≠ [] → c2.age_filter ≠ [] →
      c1.age_filter.inter c2.age_filter ≠ []) :
    filtered_df (filtered_df d c1) c2 = filtered_df d (conjCriteria c1 c2) ∧
    filtered_df d emptyCriteria = d :=
  ⟨filter_conj_general d c1 c2 h1 h2 h3 h4 h5, filter_empty_id d⟩

/-- Witness for the amended C2 at a concrete dataset and criteria. -/
theorem filter_conj_amended_witness :
    filtered_df (filtered_df [recA] selA) selA = filtered_df [recA] (conjCriteria selA selA) ∧
    filtered_df [recA] emptyCriteria = [recA] :=
  filter_conj_amended [recA] selA selA (by decide) (by decide) (by decide) (by decide)
    (by decide)

/-- C4: on the empty filtered dataset, `total_tickets`, `avg_fare`,
`total_rev` and `max_book` are all 0, and every mode-based insight takes
its "N/A" fallback; every statistic is a total function, so nothing is
raised on empty input. -/
theorem summarize_empty_defaults :
    total_tickets ([] : List Record) = 0 ∧ avg_fare [] = 0 ∧ total_rev [] = 0 ∧
    max_book [] = 0 ∧ top_route [] = some (Value.str "N/A") ∧
    top_time [] = some (Value.str "N/A") ∧ dominant_gender [] = some (Value.str "N/A") ∧
    dominant_age_group [] = some (Value.str "N/A") := by decide

theorem mem_distinctAux {α : Type} [DecidableEq α] (l : List α) (v : α) :
    ∀ seen, v ∈ distinctAux seen l ↔ v ∈ l ∧ v ∉ seen := by
  induction l with
  | nil => intro seen; simp [distinctAux]
  | cons a t ih =>
    intro seen
    by_cases ha : a ∈ seen
    · rw [show distinctAux seen (a :: t) = distinctAux seen t by simp [distinctAux, ha], ih]
      constructor
      · exact fun h => ⟨List.mem_cons_of_mem _ h.1, h.2⟩
      · rintro ⟨h1, h2⟩
        rcases List.mem_cons.mp h1 with rfl | hm
        · exact absurd ha h2
        · exact ⟨hm, h2⟩
    · rw [show distinctAux seen (a :: t) = a :: distinctAux (a :: seen) t by
        simp [distinctAux, ha]]
      rw [List.mem_cons, List.mem_cons, ih]
      constructor
      · rintro (rfl | ⟨h1, h2⟩)
        · exact ⟨Or.inl rfl, ha⟩
        · exact ⟨Or.inr h1, fun hv => h2 (List.mem_cons_of_mem _ hv)⟩
      · rintro ⟨rfl | h1, h2⟩
        · exact Or.inl rfl
        · by_cases hva : v = a
          · exact Or.inl hva
          · exact Or.inr ⟨h1, fun hv => (List.mem_cons.mp hv).elim hva h2⟩

theorem mem_distinct {α : Type} [DecidableEq α] (l : List α) (v : α) :
    v ∈ distinct l ↔ v ∈ l := by
  simp [distinct, mem_distinctAux]

theorem distinct_ne_nil {α : Type} [DecidableEq α] (l : List α) (h : l ≠ []) :
    distinct l ≠ [] := by
  cases l with
  | nil => exact absurd rfl h
  | cons a t => simp [distinct, distinctAux]

theorem natMax_cons (a : Nat) (l : List Nat) : natMax (a :: l) = max a (natMax l) := rfl

theorem natMax_mem (l : List Nat) (h : l ≠ []) : natMax l ∈ l := by
  induction l with
  | nil => exact absurd rfl h
  | cons a t ih =>
    rw [natMax_cons]
    rcases max_choice a (natMax t) with hm | hm
    · rw [hm]; exact List.mem_cons_self a t
    · rw [hm]
      cases t with
      | nil =>
        simp only [natMax, List.foldr_nil, Nat.max_zero] at hm
        simp [natMax, hm]
      | cons b u => exact List.mem_cons_of_mem a (ih (by simp))

theorem modeList_ne_nil (l : List Value) (h : ∃ v ∈ l, v ≠ Value.nan) :
    modeList l ≠ [] := by
  obtain ⟨v0, hv0, hvne⟩ := h
  have hmem : v0 ∈ l.filter fun v => v != Value.nan := by
    simp [List.mem_filter, hv0, hvne]
  have hd : distinct (l.filter fun v => v != Value.nan) ≠ [] :=
    distinct_ne_nil _ (List.ne_nil_of_mem hmem)
  unfold modeList
  have hcounts : ((distinct (l.filter fun v => v != Value.nan)).map
      fun v => (l.filter fun v => v != Value.nan).count v) ≠ [] := by
    intro hc
    exact hd (List.map_eq_nil_iff.mp hc)
  have hm := natMax_mem _ hcounts
  obtain ⟨w, hw, hwm⟩ := List.mem_map.mp hm
  refine List.ne_nil_of_mem (a := w) ?_
  refine List.mem_filter.mpr ⟨hw, ?_⟩
  simp [hwm]

theorem insight_eval (df : List Record) (f : Record → Value) (hdf : df ≠ []) :
    (if !(df.map f).isEmpty then (modeList (df.map f))[0]? else some (Value.str "N/A")) =
      (modeList (df.map f))[0]? := by
  cases df with
  | nil => exact absurd rfl hdf
  | cons a t => rfl

theorem modeList_head_isSome (df : List Record) (f : Record → Value)
    (h : ∃ r ∈ df, f r ≠ Value.nan) : (modeList (df.map f))[0]?.isSome = true := by
  obtain ⟨r, hr, hrne⟩ := h
  have hml := modeList_ne_nil (df.map f) ⟨f r, List.mem_map_of_mem f hr, hrne⟩
  cases hm : modeList (df.map f) with
  | nil => exact absurd hm hml
  | cons x xs => simp


/-- C10 counterexample: a non-empty filtered dataset whose Route column
consists of missing values. `Series.mode` drops NaN, so the mode of the
non-empty column has no values and `.values[0]` indexes out of bounds
(modelled by `none`), although `total_tickets > 0`. -/
theorem insight_index_counterexample :
    0 < total_tickets [recNanRoute] ∧ top_route [recNanRoute] = none := by decide

/-- C10 (amended): whenever `total_tickets > 0` and each insight column
contains at least one non-missing value, each insight is computed from the
first mode value (the "N/A" fallback branch is not taken) and the index
`values[0]` is in bounds. -/
theorem insights_index_safe (df : List Record)
    (h0 : 0 < total_tickets df)
    (hr : ∃ r ∈ df, r.route ≠ Value.nan)
    (ht : ∃ r ∈ df, r.time_of_travel ≠ Value.nan)
    (hg : ∃ r ∈ df, r.gender ≠ Value.nan)
    (ha : ∃ r ∈ df, r.age_group ≠ Value.nan) :
    (top_route df = (modeList (df.map Record.route))[0]? ∧
      (top_route df).isSome = true) ∧
    (top_time df = (modeList (df.map Record.time_of_travel))[0]? ∧
      (top_time df).isSome = true) ∧
    (dominant_gender df = (modeList (df.map Record.gender))[0]? ∧
      (dominant_gender df).isSome = true) ∧
    (dominant_age_group df = (modeList (df.map Record.age_group))[0]? ∧
      (dominant_age_group df).isSome = true) := by
  have hdf : df ≠ [] := by
    intro hnil
    rw [hnil] at h0
    exact Nat.lt_irrefl 0 h0
  have e1 := insight_eval df Record.route hdf
  have e2 := insight_eval df Record.time_of_travel hdf
  have e3 := insight_eval df Record.gender hdf
  have e4 := insight_eval df Record.age_group hdf
  refine ⟨⟨e1, ?_⟩, ⟨e2, ?_⟩, ⟨e3, ?_⟩, ⟨e4, ?_⟩⟩
  · rw [top_route, e1]; exact modeList_head_isSome df Record.route hr
  · rw [top_time, e2]; exact modeList_head_isSome df Record.time_of_travel ht
  · rw [dominant_gender, e3]; exact modeList_head_isSome df Record.gender hg
  · rw [dominant_age_group, e4]; exact modeList_head_isSome df Record.age_group ha

/-- Witness for the amended C10 at a concrete one-row dataset. -/
theorem insights_index_safe_witness :
    (top_route [recA] = (modeList ([recA].map Record.route))[0]? ∧
      (top_route [recA]).isSome = true) ∧
    (top_time [recA] = (modeList ([recA].map Record.time_of_travel))[0]? ∧
      (top_time [recA]).isSome = true) ∧
    (dominant_gender [recA] = (modeList ([recA].map Record.gender))[0]? ∧
      (dominant_gender [recA]).isSome = true) ∧
    (dominant_age_group [recA] = (modeList ([recA].map Record.age_group))[0]? ∧
      (dominant_age_group [recA]).isSome = true) :=
  insights_index_safe [recA] (by decide) (by decide) (by decide) (by decide) (by decide)

theorem vle_total (a b : Value) : vle a b ∨ vle b a := by
  unfold vle
  cases a <;> cases b <;> simp [valueLE] <;> exact le_total _ _

theorem vle_trans {a b c : Value} (h1 : vle a b) (h2 : vle b c) : vle a c := by
  unfold vle valueLE at *
  cases a <;> cases b <;> cases c <;> simp_all <;> exact le_trans h1 h2

theorem revOrd_total (a b : Value × Rat) : revOrd a b ∨ revOrd b a := by
  rcases lt_trichotomy a.2 b.2 with h | h | h
  · exact Or.inr (Or.inl h)
  · rcases vle_total a.1 b.1 with hv | hv
    · exact Or.inl (Or.inr ⟨h.symm, hv⟩)
    · exact Or.inr (Or.inr ⟨h, hv⟩)
  · exact Or.inl (Or.inl h)

theorem revOrd_trans (a b c : Value × Rat) (h1 : revOrd a b) (h2 : revOrd b c) :
    revOrd a c := by
  rcases h1 with h1 | ⟨h1e, h1v⟩ <;> rcases h2 with h2 | ⟨h2e, h2v⟩
  · exact Or.inl (lt_trans h2 h1)
  · exact Or.inl (lt_of_le_of_lt (le_of_eq h2e) h1)
  · exact Or.inl (lt_of_lt_of_le h2 (le_of_eq h1e))
  · exact Or.inr ⟨h2e.trans h1e, vle_trans h1v h2v⟩

instance : IsTotal (Value × Rat) revOrd := ⟨revOrd_total⟩

instance : IsTrans (Value × Rat) revOrd := ⟨revOrd_trans⟩


/-- C5 counterexample: routes B and A both sum to 300 and B's rows come
first in the dataset, yet `route_rev` lists A before B: `groupby` has
already re-ordered the groups by ascending route key, so ties are not
broken by original group encounter order. -/
theorem route_rev_tiebreak_counterexample :
    dfBA.map Record.route = [Value.str "B", Value.str "A"] ∧
    route_rev dfBA = [(Value.str "A", 300), (Value.str "B", 300)] := by
  refine ⟨rfl, ?_⟩
  have hA : routeSum dfBA (Value.str "A") = 300 := by
    unfold routeSum
    rw [show (dfBA.filter fun r => r.route == Value.str "A") = [recA300] from rfl]
    norm_num [recA300]
  have hB : routeSum dfBA (Value.str "B") = 300 := by
    unfold routeSum
    rw [show (dfBA.filter fun r => r.route == Value.str "B") = [recB300] from rfl]
    norm_num [recB300]
  have hno : ¬ revOrd (Value.str "B", (300 : Rat)) (Value.str "A", 300) := by
    rintro (h | ⟨h1, h2⟩)
    · exact absurd h (by norm_num)
    · have hs : ¬ (("B" : String) ≤ "A") := by
        simp
        decide
      exact hs (by simpa [vle, valueLE] using h2)
  have hd : distinctDropNa (dfBA.map Record.route) = [Value.str "B", Value.str "A"] := rfl
  unfold route_rev
  rw [hd]
  simp only [List.map_cons, List.map_nil, hA, hB]
  simp only [List.insertionSort, List.orderedInsert]
  rw [if_neg hno]
  exact List.take_of_length_le (by norm_num)

/-- C5 (amended): `route_rev` takes the per-route sums of `Total_Amount`
over at most the first 10 route groups, sorted by descending sum, with
ties between equal sums broken by ascending route value (the order
`groupby` gives the groups), not by original encounter order. -/
theorem route_rev_correct (df : List Record) :
    (route_rev df).length = min 10 (distinctDropNa (df.map Record.route)).length ∧
    (∀ p ∈ route_rev df, p.1 ∈ df.map Record.route ∧ p.2 = routeSum df p.1) ∧
    (route_rev df).Pairwise (fun a b => b.2 ≤ a.2) ∧
    (route_rev df).Pairwise (fun a b => b.2 = a.2 → vle a.1 b.1) := by
  refine ⟨?_, ?_, ?_, ?_⟩
  · unfold route_rev
    rw [List.length_take, List.length_insertionSort, List.length_map]
  · intro p hp
    unfold route_rev at hp
    have hp2 := (List.mem_insertionSort revOrd).mp (List.mem_of_mem_take hp)
    obtain ⟨v, hv, rfl⟩ := List.mem_map.mp hp2
    have hv2 : v ∈ distinct (df.map Record.route) := (List.mem_filter.mp hv).1
    exact ⟨(mem_distinct _ _).mp hv2, rfl⟩
  · have hs := List.sorted_insertionSort revOrd
      ((distinctDropNa (df.map Record.route)).map fun v => (v, routeSum df v))
    have ht := List.Pairwise.sublist (List.take_sublist 10 _) hs
    exact ht.imp fun h => h.elim le_of_lt fun h2 => le_of_eq h2.1
  · have hs := List.sorted_insertionSort revOrd
      ((distinctDropNa (df.map Record.route)).map fun v => (v, routeSum df v))
    have ht := List.Pairwise.sublist (List.take_sublist 10 _) hs
    refine ht.imp fun h => ?_
    rcases h with h | h
    · exact fun he => absurd (he ▸ h) (lt_irrefl _)
    · exact fun _ => h.2


/-- Witness for the amended C5: the single entry of `route_rev` on a
one-row dataset is route "A" paired with its group sum. -/
theorem route_rev_correct_witness :
    Value.str "A" ∈ dfA.map Record.route ∧
    routeSum dfA (Value.str "A") = routeSum dfA (Value.str "A") :=
  (route_rev_correct dfA).2.1 (Value.str "A", routeSum dfA (Value.str "A"))
    (by rw [show route_rev dfA = [(Value.str "A", routeSum dfA (Value.str "A"))] from rfl]
        exact List.mem_singleton_self _)

/-- C6: the heatmap restricts the filtered rows to the top-10 routes
ranked by row count (not revenue), pivots row counts with routes as row
keys and times as column keys with absent combinations filled by 0, and
produces no pivot (insufficient data, not an error) exactly when the
restricted set is empty. -/
theorem heatmap_correct (df : List Record) :
    heatmap_data df = df.filter (fun r => (top_10 df).contains r.route) ∧
    (top_10 df).length ≤ 10 ∧
    (∀ v ∈ top_10 df, v ∈ df.map Record.route ∧ v ≠ Value.nan) ∧
    (∀ v ∈ top_10 df, ∀ w ∈ df.map Record.route, w ≠ Value.nan → w ∉ top_10 df →
      routeCount df w ≤ routeCount df v) ∧
    (∀ p ∈ route_time_pivot (heatmap_data df), ∀ q ∈ p.2,
      q.2 = ((heatmap_data df).filter fun r =>
        r.route == p.1 && r.time_of_travel == q.1).length) ∧
    (∀ p ∈ route_time_pivot (heatmap_data df), ∀ q ∈ p.2,
      (∀ r ∈ heatmap_data df, ¬(r.route = p.1 ∧ r.time_of_travel = q.1)) → q.2 = 0) ∧
    (route_time_heatmap df = none ↔ heatmap_data df = []) := by
  refine ⟨rfl, ?_, ?_, ?_, ?_, ?_, ?_⟩
  · exact List.length_take_le 10 _
  · intro v hv
    unfold top_10 at hv
    have hv2 := (List.mem_insertionSort _).mp (List.mem_of_mem_take hv)
    have hv3 := List.mem_filter.mp hv2
    refine ⟨(mem_distinct _ _).mp hv3.1, ?_⟩
    simpa using hv3.2
  · intro v hv w hw hwnan hwtop
    unfold top_10 at hv hwtop
    have hsorted := @List.sorted_insertionSort _
      (fun a b => routeCount df b ≤ routeCount df a) (fun a b => Nat.decLe _ _)
      ⟨fun a b => le_total _ _⟩ ⟨fun a b c hx hy => le_trans hy hx⟩
      (distinctDropNa (df.map Record.route))
    have hw' : w ∈ List.insertionSort (fun a b => routeCount df b ≤ routeCount df a)
        (distinctDropNa (df.map Record.route)) := by
      refine (List.mem_insertionSort _).mpr ?_
      refine List.mem_filter.mpr ⟨(mem_distinct _ _).mpr hw, by simp [hwnan]⟩
    have hwd : w ∈ List.drop 10 (List.insertionSort
        (fun a b => routeCount df b ≤ routeCount df a)
        (distinctDropNa (df.map Record.route))) := by
      rcases List.mem_append.mp (by
        rw [List.take_append_drop 10 (List.insertionSort
          (fun a b => routeCount df b ≤ routeCount df a)
          (distinctDropNa (df.map Record.route)))]
        exact hw') with h | h
      · exact absurd h hwtop
      · exact h
    exact List.Sorted.rel_of_mem_take_of_mem_drop hsorted hv hwd
  · intro p hp q hq
    obtain ⟨rt, hrt, rfl⟩ := List.mem_map.mp hp
    obtain ⟨tm, htm, rfl⟩ := List.mem_map.mp hq
    rfl
  · intro p hp q hq hnone
    obtain ⟨rt, hrt, rfl⟩ := List.mem_map.mp hp
    obtain ⟨tm, htm, rfl⟩ := List.mem_map.mp hq
    show pivot_cell (heatmap_data df) rt tm = 0
    unfold pivot_cell
    rw [List.length_eq_zero, List.filter_eq_nil_iff]
    intro r hr hcond
    simp only [Bool.and_eq_true, beq_iff_eq] at hcond
    exact hnone r hr hcond
  · unfold route_time_heatmap
    by_cases h : heatmap_data df = []
    · simp [h]
    · have hb : (heatmap_data df).isEmpty = false := by
        simpa [List.isEmpty_iff] using h
      simp [hb, h]

/-- Witness for C6: route "A" is among the top-10 most frequent routes of
the concrete dataset, is a value of its Route column, and is not missing. -/
theorem heatmap_correct_witness :
    Value.str "A" ∈ dfBA.map Record.route ∧ Value.str "A" ≠ Value.nan :=
  (heatmap_correct dfBA).2.2.1 (Value.str "A") (by decide)

theorem filtered_df_genderOnly (df : List Record) (sel : List Value) (hsel : sel ≠ []) :
    filtered_df df ⟨[], [], [], sel, []⟩ = df.filter fun r => sel.contains r.gender := by
  cases sel with
  | nil => exact absurd rfl hsel
  | cons a t => simp [filtered_df]

theorem filtered_df_ageOnly (df : List Record) (sel : List Value) (hsel : sel ≠ []) :
    filtered_df df ⟨[], [], [], [], sel⟩ = df.filter fun r => sel.contains r.age_group := by
  cases sel with
  | nil => exact absurd rfl hsel
  | cons a t => simp [filtered_df]


/-- C9: the Gender and Age_Group option lists are the sorted distinct
stringified column values, while the filter tests the raw cell against the
selected strings; on an all-string column each option matches exactly the
rows carrying it (and comes from at least one row), whereas a non-string
cell yields an option whose selection matches no row. -/
theorem options_string_mismatch :
    (∀ (df : List Record) (o : String), (∀ r ∈ df, ∃ s, r.gender = Value.str s) →
      o ∈ gender_options df →
      (filtered_df df (genderOnly [o]) = df.filter fun r => r.gender == Value.str o) ∧
      ∃ r ∈ df, r.gender = Value.str o) ∧
    (∀ (df : List Record) (o : String), (∀ r ∈ df, ∃ s, r.age_group = Value.str s) →
      o ∈ age_options df →
      (filtered_df df (ageOnly [o]) = df.filter fun r => r.age_group == Value.str o) ∧
      ∃ r ∈ df, r.age_group = Value.str o) ∧
    (gender_options [recNumGender] = ["25"] ∧
      filtered_df [recNumGender] (genderOnly (gender_options [recNumGender])) = []) := by
  refine ⟨?_, ?_, ?_⟩
  · intro df o hall ho
    constructor
    · rw [show genderOnly [o] = (⟨[], [], [], [Value.str o], []⟩ : Criteria) from rfl]
      rw [filtered_df_genderOnly df [Value.str o] (by simp)]
      refine List.filter_congr ?_
      intro r _
      rw [Bool.eq_iff_iff]
      simp
    · have ho2 := (List.mem_insertionSort _).mp ho
      have ho3 := (mem_distinct _ _).mp ho2
      obtain ⟨r, hr, hro⟩ := List.mem_map.mp ho3
      obtain ⟨s, hs⟩ := hall r hr
      refine ⟨r, hr, ?_⟩
      rw [hs] at hro ⊢
      simp only [valueToStr] at hro
      rw [hro]
  · intro df o hall ho
    constructor
    · rw [show ageOnly [o] = (⟨[], [], [], [], [Value.str o]⟩ : Criteria) from rfl]
      rw [filtered_df_ageOnly df [Value.str o] (by simp)]
      refine List.filter_congr ?_
      intro r _
      rw [Bool.eq_iff_iff]
      simp
    · have ho2 := (List.mem_insertionSort _).mp ho
      have ho3 := (mem_distinct _ _).mp ho2
      obtain ⟨r, hr, hro⟩ := List.mem_map.mp ho3
      obtain ⟨s, hs⟩ := hall r hr
      refine ⟨r, hr, ?_⟩
      rw [hs] at hro ⊢
      simp only [valueToStr] at hro
      rw [hro]
  · exact ⟨by decide, by decide⟩

/-- Witness for C9 on an all-string dataset: the option "Male" filters to
exactly the rows whose gender is the string "Male", and comes from a row. -/
theorem options_string_mismatch_witness :
    (filtered_df [recA] (genderOnly ["Male"]) =
      [recA].filter fun r => r.gender == Value.str "Male") ∧
    ∃ r ∈ [recA], r.gender = Value.str "Male" :=
  options_string_mismatch.1 [recA] "Male"
    (by
      intro r hr
      rw [List.mem_singleton] at hr
      subst hr
      exact ⟨"Male", rfl⟩)
    (by decide)

theorem isNA_parse_none (s : String) (h : isNA s = true) : parseDecimal s = none := by
  have hmem : s ∈ na_values := List.mem_of_elem_eq_true h
  simp only [na_values, List.mem_cons, List.not_mem_nil, or_false] at hmem
  rcases hmem with rfl | rfl | rfl | rfl | rfl | rfl | rfl | rfl | rfl | rfl <;> rfl

theorem parse_125 : parseDecimal "12.5" = some (25 / 2) := by
  have h : parseDecimal "12.5" =
      some ((digitsToNat ['1', '2'] : Rat) +
        (digitsToNat ['5'] : Rat) / (10 : Rat) ^ (['5'] : List Char).length) := rfl
  rw [h, show digitsToNat ['1', '2'] = 12 from rfl, show digitsToNat ['5'] = 5 from rfl]
  norm_num

theorem to_numeric_readCell (s : String) :
    to_numeric_fill0 (readCell s) = Value.num ((parseDecimal s).getD 0) := by
  unfold readCell
  by_cases h : isNA s = true
  · rw [if_pos h, isNA_parse_none s h]
    rfl
  · rw [if_neg h]
    cases hp : parseDecimal s <;> simp [to_numeric_fill0, hp]

theorem to_numeric_na_or_str (s : String) :
    to_numeric_fill0 (if isNA s then Value.nan else Value.str s) =
      Value.num ((parseDecimal s).getD 0) := by
  by_cases h : isNA s = true
  · rw [if_pos h, isNA_parse_none s h]
    rfl
  · rw [if_neg h]
    cases hp : parseDecimal s <;> simp [to_numeric_fill0, hp]

theorem readColumn_coerce (cs : List String) :
    (readColumn cs).map to_numeric_fill0 =
      cs.map fun s => Value.num ((parseDecimal s).getD 0) := by
  unfold readColumn
  by_cases h : (cs.all fun s => isNA s || (parseDecimal s).isSome) = true
  · rw [if_pos h, List.map_map]
    exact List.map_eq_map_iff.mpr fun s _ => to_numeric_readCell s
  · rw [if_neg h, List.map_map]
    exact List.map_eq_map_iff.mpr fun s _ => to_numeric_na_or_str s

theorem lookup_map_value {β γ : Type} (f : String → β → γ) (t : List (String × β)) (k : String) :
    List.lookup k (t.map fun col => (col.1, f col.1 col.2)) =
      (List.lookup k t).map fun v => f k v := by
  induction t with
  | nil => rfl
  | cons a t ih =>
    by_cases h : k = a.1
    · have hb : (k == a.1) = true := by simp [h]
      simp [List.lookup, hb, h]
    · have hb : (k == a.1) = false := by simp [h]
      simp [List.lookup, hb, ih]

theorem coerceFare_eq_map (t : Table) :
    coerceFareColumns t = t.map fun col =>
      (col.1, if col.1 == "Seat Fare" || col.1 == "Total Ticket Amount" then
        col.2.map to_numeric_fill0 else col.2) := by
  unfold coerceFareColumns
  refine List.map_eq_map_iff.mpr ?_
  intro a _
  by_cases h : (a.1 == "Seat Fare" || a.1 == "Total Ticket Amount") = true
  · rw [if_pos h, if_pos h]
  · rw [if_neg h, if_neg h]

theorem lookup_load_data (raw : RawCsv) (k : String) :
    List.lookup k (load_data raw) = (List.lookup k raw).map fun cs =>
      if k == "Seat Fare" || k == "Total Ticket Amount" then
        (readColumn cs).map to_numeric_fill0 else readColumn cs := by
  unfold load_data
  rw [coerceFare_eq_map, List.map_map]
  exact lookup_map_value
    (fun n cs => if n == "Seat Fare" || n == "Total Ticket Amount" then
      (readColumn cs).map to_numeric_fill0 else readColumn cs) raw k

/-- C3: loading coerces every cell of a present raw fare column to a
number: a cell that parses as a decimal keeps its value, every other cell
(non-numeric text, empty, missing) becomes exactly 0. The repair is
silent: `load_data` is a total function of the parsed source, so malformed
fare data never aborts loading. -/
theorem load_data_fare_coercion (raw : RawCsv) (cs : List String) (name : String)
    (hn : name = "Seat Fare" ∨ name = "Total Ticket Amount")
    (hc : List.lookup name raw = some cs) :
    List.lookup name (load_data raw) =
      some (cs.map fun s => Value.num ((parseDecimal s).getD 0)) ∧
    parseDecimal "abc" = none ∧ parseDecimal "" = none ∧
    parseDecimal "12.5" = some (25 / 2) := by
  refine ⟨?_, by decide, by decide, parse_125⟩
  rw [lookup_load_data, hc]
  have hcond : (name == "Seat Fare" || name == "Total Ticket Amount") = true := by
    rcases hn with rfl | rfl <;> simp
  simp only [Option.map_some', hcond, reduceIte]
  rw [readColumn_coerce]


/-- Witness for C3 on a concrete raw fare column. -/
theorem load_data_fare_coercion_witness :
    List.lookup "Seat Fare" (load_data rawFare) =
      some (["abc", "", "12.5"].map fun s => Value.num ((parseDecimal s).getD 0)) ∧
    parseDecimal "abc" = none ∧ parseDecimal "" = none ∧
    parseDecimal "12.5" = some (25 / 2) :=
  load_data_fare_coercion rawFare ["abc", "", "12.5"] "Seat Fare" (Or.inl rfl) (by decide)

theorem mapName_not_key (c : String) (h1 : c ≠ "Encode Route") (h2 : c ≠ "Category")
    (h3 : c ≠ "Time Of Travel") (h4 : c ≠ "Seat Fare") (h5 : c ≠ "Total Ticket Amount")
    (h6 : c ≠ "Gender") (h7 : c ≠ "Age Group") : mapName c = c := by
  unfold mapName COLUMN_MAP
  have b1 : (c == "Encode Route") = false := by simp [h1]
  have b2 : (c == "Category") = false := by simp [h2]
  have b3 : (c == "Time Of Travel") = false := by simp [h3]
  have b4 : (c == "Seat Fare") = false := by simp [h4]
  have b5 : (c == "Total Ticket Amount") = false := by simp [h5]
  have b6 : (c == "Gender") = false := by simp [h6]
  have b7 : (c == "Age Group") = false := by simp [h7]
  simp [List.lookup, b1, b2, b3, b4, b5, b6, b7]

theorem mapName_total_amount (c : String) (h : mapName c = "Total_Amount") :
    c = "Total_Amount" ∨ c = "Total Ticket Amount" := by
  by_cases h1 : c = "Encode Route"
  · subst h1; exact absurd h (by decide)
  by_cases h2 : c = "Category"
  · subst h2; exact absurd h (by decide)
  by_cases h3 : c = "Time Of Travel"
  · subst h3; exact absurd h (by decide)
  by_cases h4 : c = "Seat Fare"
  · subst h4; exact absurd h (by decide)
  by_cases h5 : c = "Total Ticket Amount"
  · exact Or.inr h5
  by_cases h6 : c = "Gender"
  · subst h6; exact absurd h (by decide)
  by_cases h7 : c = "Age Group"
  · subst h7; exact absurd h (by decide)
  exact Or.inl (h ▸ (mapName_not_key c h1 h2 h3 h4 h5 h6 h7).symm)

theorem lookup_rename (t : Table) (k : String) (hk : mapName k = k)
    (h : ∀ col ∈ t, mapName col.1 = k → col.1 = k) :
    List.lookup k (rename_columns t) = List.lookup k t := by
  induction t with
  | nil => rfl
  | cons a t ih =>
    have htail := ih fun col hc => h col (List.mem_cons_of_mem _ hc)
    by_cases hka : k = a.1
    · have hma : mapName a.1 = a.1 := by rw [← hka]; exact hk
      have hb : (k == mapName a.1) = true := by simp [hma, hka]
      have hb2 : (k == a.1) = true := by simp [hka]
      simp [rename_columns, List.lookup, hb, hb2]
    · have hmk : mapName a.1 ≠ k := fun hm => hka ((h a (List.mem_cons_self _ _) hm)).symm
      have hb : (k == mapName a.1) = false := by simp [Ne.symm hmk]
      have hb2 : (k == a.1) = false := by simp [hka]
      simpa [rename_columns, List.lookup, hb, hb2] using htail

theorem lookup_append_left {β : Type} (l1 l2 : List (String × β)) (k : String)
    (h : (List.lookup k l1).isSome = true) :
    List.lookup k (l1 ++ l2) = List.lookup k l1 := by
  induction l1 with
  | nil => simp [List.lookup] at h
  | cons a t ih =>
    cases hb : (k == a.1)
    · have h' : (List.lookup k t).isSome = true := by
        simpa [List.lookup, hb] using h
      simpa [List.lookup, hb] using ih h'
    · simp [List.lookup, hb]

theorem ensure_required_append (t : Table) : ∃ e : Table, ensure_required t = t ++ e := by
  unfold ensure_required
  generalize required_cols = cols
  induction cols generalizing t with
  | nil => exact ⟨[], (List.append_nil t).symm⟩
  | cons c cs ih =>
    simp only [List.foldl_cons]
    by_cases h : hasCol t c = true
    · rw [if_pos h]; exact ih t
    · rw [if_neg h]
      obtain ⟨e, he⟩ := ih (t ++ [(c, defaultColumn c (nrows t))])
      exact ⟨[(c, defaultColumn c (nrows t))] ++ e, by rw [he, List.append_assoc]⟩

theorem lookup_ensure_required (t : Table) (k : String)
    (h : (List.lookup k t).isSome = true) :
    List.lookup k (ensure_required t) = List.lookup k t := by
  obtain ⟨e, he⟩ := ensure_required_append t
  rw [he]
  exact lookup_append_left t e k h

theorem load_data_fst (raw : RawCsv) :
    (load_data raw).map Prod.fst = raw.map Prod.fst := by
  unfold load_data
  rw [coerceFare_eq_map, List.map_map, List.map_map]
  rfl

/-- C8: numeric coercion happens before the rename and keys on the raw
names "Seat Fare" and "Total Ticket Amount" only: a source that already
carries a "Total_Amount" column (and no "Total Ticket Amount" column)
ships that column into the normalized dataset exactly as read, with no
coercion applied, so its non-numeric cells are not repaired to 0. -/
theorem total_amount_not_coerced (raw : RawCsv) (cs : List String)
    (hc : List.lookup "Total_Amount" raw = some cs)
    (hno : ∀ col ∈ raw, col.1 ≠ "Total Ticket Amount") :
    List.lookup "Total_Amount" (normalizeCsv raw) = some (readColumn cs) ∧
    readColumn ["abc", "5"] = [Value.str "abc", Value.str "5"] := by
  refine ⟨?_, by decide⟩
  unfold normalizeCsv
  have h1 : List.lookup "Total_Amount" (load_data raw) = some (readColumn cs) := by
    rw [lookup_load_data, hc]
    simp
  have h2 : List.lookup "Total_Amount" (rename_columns (load_data raw)) =
      some (readColumn cs) := by
    rw [lookup_rename _ _ rfl ?_]
    · exact h1
    · intro col hcol hm
      rcases mapName_total_amount col.1 hm with h | h
      · exact h
      · exfalso
        have hmm : col.1 ∈ (load_data raw).map Prod.fst := List.mem_map_of_mem _ hcol
        rw [load_data_fst] at hmm
        obtain ⟨col', hcol', he⟩ := List.mem_map.mp hmm
        exact hno col' hcol' (he.trans h)
  rw [lookup_ensure_required _ _ (by rw [h2]; rfl)]
  exact h2


/-- Witness for C8 on a concrete source: "abc" survives uncoerced. -/
theorem total_amount_not_coerced_witness :
    List.lookup "Total_Amount" (normalizeCsv rawTA) = some (readColumn ["abc", "5"]) ∧
    readColumn ["abc", "5"] = [Value.str "abc", Value.str "5"] :=
  total_amount_not_coerced rawTA ["abc", "5"] (by decide) (by decide)


theorem parse_isNA_false (s : String) (h : (parseDecimal s).isSome = true) :
    isNA s = false := by
  cases hna : isNA s
  · rfl
  · rw [isNA_parse_none s hna] at h
    exact absurd h (by decide)

theorem readCell_write_num (v : Value) (h : numCellOk v = true) :
    readCell (writeCell v) = v := by
  cases v with
  | str s => simp [numCellOk] at h
  | nan => rfl
  | num q =>
    simp only [numCellOk, beq_iff_eq] at h
    have hna : isNA (renderRat q) = false := parse_isNA_false _ (by rw [h]; rfl)
    simp [readCell, writeCell, hna, h]

theorem readColumn_write_num (cs : List Value) (h : ∀ v ∈ cs, numCellOk v = true) :
    readColumn (cs.map writeCell) = cs := by
  have hall : ((cs.map writeCell).all fun s => isNA s || (parseDecimal s).isSome) = true := by
    rw [List.all_eq_true]
    intro s hs
    obtain ⟨v, hv, rfl⟩ := List.mem_map.mp hs
    have hvok := h v hv
    cases v with
    | str s' => simp [numCellOk] at hvok
    | nan => decide
    | num q =>
      simp only [numCellOk, beq_iff_eq] at hvok
      simp [writeCell, hvok]
  unfold readColumn
  rw [if_pos hall, List.map_map]
  have hmap : cs.map (readCell ∘ writeCell) = cs.map id :=
    List.map_eq_map_iff.mpr fun v hv => readCell_write_num v (h v hv)
  rw [hmap, List.map_id]

theorem readColumn_write_text (cs : List Value) (h : ∀ v ∈ cs, textCellOk v = true) :
    readColumn (cs.map writeCell) = cs := by
  by_cases hstr : ∀ v ∈ cs, v = Value.nan
  · have hall : ((cs.map writeCell).all fun s => isNA s || (parseDecimal s).isSome) = true := by
      rw [List.all_eq_true]
      intro s hs
      obtain ⟨v, hv, rfl⟩ := List.mem_map.mp hs
      rw [hstr v hv]
      decide
    unfold readColumn
    rw [if_pos hall, List.map_map]
    have hmap : cs.map (readCell ∘ writeCell) = cs.map id :=
      List.map_eq_map_iff.mpr fun v hv => by rw [hstr v hv]; rfl
    rw [hmap, List.map_id]
  · push_neg at hstr
    obtain ⟨v0, hv0, hv0ne⟩ := hstr
    have hv0ok := h v0 hv0
    have hfalse : ((cs.map writeCell).all fun s => isNA s || (parseDecimal s).isSome) = false := by
      rw [List.all_eq_false]
      cases v0 with
      | nan => exact absurd rfl hv0ne
      | num q => simp [textCellOk] at hv0ok
      | str s =>
        refine ⟨writeCell (Value.str s), List.mem_map_of_mem _ hv0, ?_⟩
        simp only [textCellOk, Bool.and_eq_true, Bool.not_eq_true'] at hv0ok
        simp [writeCell, hv0ok.1, Option.isNone_iff_eq_none.mp hv0ok.2]
    unfold readColumn
    rw [show (if ((cs.map writeCell).all fun s => isNA s || (parseDecimal s).isSome) = true
      then (cs.map writeCell).map readCell
      else (cs.map writeCell).map fun s => if isNA s then Value.nan else Value.str s) =
        (cs.map writeCell).map fun s => if isNA s then Value.nan else Value.str s by
      rw [hfalse]
      simp]
    rw [List.map_map]
    have hmap : cs.map ((fun s => if isNA s then Value.nan else Value.str s) ∘ writeCell) =
        cs.map id := by
      refine List.map_eq_map_iff.mpr fun v hv => ?_
      have hvok := h v hv
      cases v with
      | num q => simp [textCellOk] at hvok
      | nan => rfl
      | str s =>
        simp only [textCellOk, Bool.and_eq_true, Bool.not_eq_true'] at hvok
        show (if isNA s then Value.nan else Value.str s) = id (Value.str s)
        simp [hvok.1]
    rw [hmap, List.map_id]

theorem coerce_num_id (cs : List Value) (h : ∀ v ∈ cs, ∃ q, v = Value.num q) :
    cs.map to_numeric_fill0 = cs := by
  have hmap : cs.map to_numeric_fill0 = cs.map id :=
    List.map_eq_map_iff.mpr fun v hv => by obtain ⟨q, rfl⟩ := h v hv; rfl
  rw [hmap, List.map_id]

theorem mapName_self (c : String) (h1 : c ≠ "Encode Route") (h2 : c ≠ "Time Of Travel")
    (h3 : c ≠ "Total Ticket Amount") (h4 : c ≠ "Age Group") : mapName c = c := by
  by_cases ha : c = "Category"
  · subst ha; rfl
  by_cases hb : c = "Seat Fare"
  · subst hb; rfl
  by_cases hc : c = "Gender"
  · subst hc; rfl
  exact mapName_not_key c h1 ha h2 hb h3 hc h4

/-- C7 (amended): re-loading an exported view reproduces it exactly,
provided the view has the seven canonical columns and none of the four
source-only names, its "Seat Fare" column is fully numeric (as the
normalizer guarantees), and every column is either numeric with exactly
re-parseable renderings or text made of non-NA, non-numeric-looking
strings. A view containing an NA sentinel such as a defaulted "N/A" cell
is outside these conditions and genuinely fails to round-trip. -/
theorem export_roundtrip (t : Table)
    (hreq : ∀ c ∈ required_cols, hasCol t c = true)
    (hsrc : ∀ col ∈ t, col.1 ≠ "Encode Route" ∧ col.1 ≠ "Time Of Travel" ∧
      col.1 ≠ "Total Ticket Amount" ∧ col.1 ≠ "Age Group")
    (hsf : ∀ col ∈ t, col.1 = "Seat Fare" → ∀ v ∈ col.2, ∃ q, v = Value.num q)
    (hstable : ∀ col ∈ t, col.2.all numCellOk = true ∨ col.2.all textCellOk = true) :
    normalizeCsv (to_csv t) = t := by
  unfold normalizeCsv
  have hread : (to_csv t).map (fun col => (col.1, readColumn col.2)) = t := by
    unfold to_csv
    rw [List.map_map]
    have hmap : t.map ((fun col => (col.1, readColumn col.2)) ∘
        fun col => (col.1, col.2.map writeCell)) = t.map id := by
      refine List.map_eq_map_iff.mpr fun col hcol => ?_
      show (col.1, readColumn (col.2.map writeCell)) = col
      rcases hstable col hcol with h | h
      · rw [readColumn_write_num col.2 (List.all_eq_true.mp h)]
      · rw [readColumn_write_text col.2 (List.all_eq_true.mp h)]
    rw [hmap, List.map_id]
  have hload : load_data (to_csv t) = t.map fun col =>
      (col.1, if col.1 == "Seat Fare" || col.1 == "Total Ticket Amount" then
        col.2.map to_numeric_fill0 else col.2) := by
    unfold load_data
    rw [hread, coerceFare_eq_map]
  have hcoerce : (t.map fun col =>
      (col.1, if col.1 == "Seat Fare" || col.1 == "Total Ticket Amount" then
        col.2.map to_numeric_fill0 else col.2)) = t := by
    have hmap : (t.map fun col =>
        (col.1, if col.1 == "Seat Fare" || col.1 == "Total Ticket Amount" then
          col.2.map to_numeric_fill0 else col.2)) = t.map id := by
      refine List.map_eq_map_iff.mpr fun col hcol => ?_
      by_cases hfs : col.1 = "Seat Fare"
      · have hb : (col.1 == "Seat Fare" || col.1 == "Total Ticket Amount") = true := by
          simp [hfs]
        simp only [hb, reduceIte]
        rw [coerce_num_id col.2 (hsf col hcol hfs)]
        rfl
      · have hb : (col.1 == "Seat Fare" || col.1 == "Total Ticket Amount") = false := by
          simp [hfs, (hsrc col hcol).2.2.1]
        simp only [hb, Bool.false_eq_true, reduceIte]
        rfl
    rw [hmap, List.map_id]
  have hrename : rename_columns t = t := by
    unfold rename_columns
    have hmap : t.map (fun col => (mapName col.1, col.2)) = t.map id := by
      refine List.map_eq_map_iff.mpr fun col hcol => ?_
      obtain ⟨n1, n2, n3, n4⟩ := hsrc col hcol
      rw [mapName_self col.1 n1 n2 n3 n4]
      rfl
    rw [hmap, List.map_id]
  have hensure : ∀ cols : List String, (∀ c ∈ cols, hasCol t c = true) →
      cols.foldl (fun acc c =>
        if hasCol acc c then acc else acc ++ [(c, defaultColumn c (nrows acc))]) t = t := by
    intro cols
    induction cols with
    | nil => intro _; rfl
    | cons c cols ih =>
      intro hc
      simp only [List.foldl_cons]
      rw [if_pos (hc c (List.mem_cons_self _ _))]
      exact ih fun c' hc' => hc c' (List.mem_cons_of_mem _ hc')
  rw [hload, hcoerce, hrename]
  exact hensure required_cols hreq


/-- C7 counterexample: exporting a view whose Route cells hold the default
string "N/A" and re-loading it does not reproduce the view: `read_csv`
treats "N/A" as an NA sentinel, so the cell comes back as a missing value
instead of the string. -/
theorem roundtrip_counterexample : normalizeCsv (to_csv tNA) ≠ tNA := by
  intro h
  have hL : List.lookup "Route" (normalizeCsv (to_csv tNA)) = some [Value.nan] := by decide
  have hR : List.lookup "Route" tNA = some [Value.str "N/A"] := by decide
  rw [h, hR] at hL
  exact absurd hL (by decide)


theorem numCellOk_12 : numCellOk (Value.num 12) = true := by
  simp only [numCellOk]
  rw [show renderRat 12 = "12" from rfl]
  rw [show parseDecimal "12" = some (((12 : Nat) : Rat) +
    ((0 : Nat) : Rat) / (10 : Rat) ^ (0 : Nat)) from rfl]
  rw [beq_iff_eq, Option.some.injEq]
  norm_num

/-- Witness for the amended C7: the concrete well-behaved view round-trips
exactly through export and re-load. -/
theorem export_roundtrip_witness : normalizeCsv (to_csv tGood) = tGood :=
  export_roundtrip tGood (by decide) (by decide)
    (by
      intro col hcol hname v hv
      simp only [tGood, List.mem_cons, List.not_mem_nil, or_false] at hcol
      rcases hcol with rfl | rfl | rfl | rfl | rfl | rfl | rfl
      · exact absurd hname (by decide)
      · exact absurd hname (by decide)
      · exact absurd hname (by decide)
      · rw [List.mem_singleton] at hv
        exact ⟨12, hv⟩
      · exact absurd hname (by decide)
      · exact absurd hname (by decide)
      · exact absurd hname (by decide))
    (by
      intro col hcol
      simp only [tGood, List.mem_cons, List.not_mem_nil, or_false] at hcol
      rcases hcol with rfl | rfl | rfl | rfl | rfl | rfl | rfl
      · right; decide
      · right; decide
      · right; decide
      · left
        simp [List.all_cons, List.all_nil, numCellOk_12]
      · left
        simp [List.all_cons, List.all_nil, numCellOk_12]
      · right; decide
      · right; decide)
